import Mathlib

/-!
Shallow embedding of the production estimation engine of `src/app.py`
(`production_calculator_page`, lines 546-611) and of the machine-profile
construction logic (`machine_configuration_page`, lines 319-333 and 463-477).
All numeric arithmetic is modelled over `ℚ` (the Python source computes in
floating point; the formulas are exact rational expressions).
Dictionaries read with `.get(key, default)` are modelled as `Option` fields
read with `Option.getD`.
-/

/-- Machine type vocabulary of the source: "Manual", "Semi-Automática",
"Automática" (`MACHINE_TYPES`, app.py line 252). -/
inductive MachineType where
  | manual
  | semiAutomatic
  | automatic
deriving DecidableEq, Repr

/-- The `setup_params` dictionary of a machine: optional numeric fields
(JSON keys), read by the engine with `.get(key, 0)`.  Keys from
app.py lines 303-313. `empaque` is stored in seconds, the rest in minutes. -/
structure SetupParams where
  calibracion : Option ℚ := none
  otros : Option ℚ := none
  cambio_rollo : Option ℚ := none
  cambio_producto : Option ℚ := none
  cambio_cuchillo : Option ℚ := none
  cambio_perforador : Option ℚ := none
  cambio_paquete : Option ℚ := none
  empaque : Option ℚ := none
deriving DecidableEq, Repr

/-- The `production_params` dictionary of a machine (app.py lines 317-333). -/
structure ProductionParams where
  unidades_por_minuto : Option ℚ := none
  peso_por_unidad : Option ℚ := none
  ciclo_total : Option ℚ := none
  ciclo_productivo : Option ℚ := none
  ratio_productivo : Option ℚ := none
deriving DecidableEq, Repr

/-- A stored machine configuration as the calculator page reads it
(name, description, category and timestamps play no role in the engine). -/
structure MachineConfig where
  type : MachineType
  setup_params : SetupParams
  production_params : ProductionParams
deriving DecidableEq, Repr

/-- The `interrupciones` dictionary of per-shift event counts
(app.py lines 537-545).  Which keys are present depends on the machine
type in the UI; `none` models an absent key. -/
structure Interrupciones where
  cambios_rollo : Option Nat := none
  cambios_producto : Option Nat := none
  cambios_cuchillo : Option Nat := none
  cambios_perforador : Option Nat := none
  cambios_paquete : Option Nat := none
  cambios_empaque : Option Nat := none
deriving DecidableEq, Repr

/-- The shift inputs collected by the calculator page (app.py lines 532-545). -/
structure ShiftInput where
  turno_horas : ℚ
  desayuno : Bool
  almuerzo : Bool
  interrupciones : Interrupciones
deriving DecidableEq, Repr

/-- The variable-interruption event kinds handled by the loop at
app.py lines 555-563. -/
inductive EventKind where
  | rollo
  | producto
  | cuchillo
  | perforador
  | paquete
  | empaque
deriving DecidableEq, Repr

/-- Per-event duration lookup, the fixed kind-to-field mapping of
app.py lines 558-563; `empaque` is stored in seconds and divided by 60. -/
def eventDuration (sp : SetupParams) : EventKind → ℚ
  | .rollo => sp.cambio_rollo.getD 0
  | .producto => sp.cambio_producto.getD 0
  | .cuchillo => sp.cambio_cuchillo.getD 0
  | .perforador => sp.cambio_perforador.getD 0
  | .paquete => sp.cambio_paquete.getD 0
  | .empaque => sp.empaque.getD 0 / 60

/-- Display name of each event kind (`nombre_evento`, app.py lines 558-563). -/
def eventName : EventKind → String
  | .rollo => "Cambios Rollo"
  | .producto => "Cambios Producto"
  | .cuchillo => "Cambios Cuchillo"
  | .perforador => "Cambios Perforador"
  | .paquete => "Cambios Paquete"
  | .empaque => "Cambios Empaque"

/-- The entries of the `interrupciones` dictionary in insertion order
(app.py lines 538-545): only the keys present are iterated. -/
def presentEvents (i : Interrupciones) : List (EventKind × Nat) :=
  (i.cambios_rollo.map fun n => (EventKind.rollo, n)).toList ++
  (i.cambios_producto.map fun n => (EventKind.producto, n)).toList ++
  (i.cambios_cuchillo.map fun n => (EventKind.cuchillo, n)).toList ++
  (i.cambios_perforador.map fun n => (EventKind.perforador, n)).toList ++
  (i.cambios_paquete.map fun n => (EventKind.paquete, n)).toList ++
  (i.cambios_empaque.map fun n => (EventKind.empaque, n)).toList

/-- One iteration of the loop at app.py lines 555-568: `tiempo_por_evento`
and `nombre_evento` start at `0` / `""` and are set only when the count is
positive; the product is accumulated and a labeled line item recorded only
when the total minutes are positive and a name was set. -/
def eventStep (sp : SetupParams) (acc : ℚ × List (String × ℚ))
    (e : EventKind × Nat) : ℚ × List (String × ℚ) :=
  let n := e.2
  let td : ℚ × String := if 0 < n then (eventDuration sp e.1, eventName e.1) else (0, "")
  let tiempo_total_evento : ℚ := (n : ℚ) * td.1
  if 0 < tiempo_total_evento ∧ td.2 ≠ "" then
    (acc.1 + tiempo_total_evento,
     acc.2 ++ [(td.2 ++ " (" ++ toString n ++ "x)", tiempo_total_evento)])
  else
    acc

/-- The whole loop at app.py lines 555-568: accumulated
`interrupciones_variables` minutes together with
`detalle_interrupciones_variables` as an ordered association list. -/
def variablesResult (sp : SetupParams) (i : Interrupciones) :
    ℚ × List (String × ℚ) :=
  (presentEvents i).foldl (eventStep sp) (0, [])

/-- The `interrupciones_variables` accumulator (app.py line 552, accumulated 567). -/
def interrupcionesVariables (sp : SetupParams) (i : Interrupciones) : ℚ :=
  (variablesResult sp i).1

/-- The `detalle_interrupciones_variables` dictionary (app.py line 553, extended 568). -/
def detalleInterrupcionesVariables (sp : SetupParams) (i : Interrupciones) :
    List (String × ℚ) :=
  (variablesResult sp i).2

/-- Shift minutes: `turno_minutos = turno_horas * 60` (app.py line 549). -/
def turnoMinutos (inp : ShiftInput) : ℚ := inp.turno_horas * 60

/-- Fixed interruption minutes, `interrupciones_fijas` (app.py line 550). -/
def interrupcionesFijas (sp : SetupParams) : ℚ :=
  sp.calibracion.getD 0 + sp.otros.getD 0

/-- Meal minutes, `tiempo_comidas` (app.py line 551). -/
def tiempoComidas (inp : ShiftInput) : ℚ :=
  (if inp.desayuno then 15 else 0) + (if inp.almuerzo then 60 else 0)

/-- Net available minutes, `tiempo_neto_disponible` (app.py line 570). -/
def tiempoNetoDisponible (cfg : MachineConfig) (inp : ShiftInput) : ℚ :=
  turnoMinutos inp -
    (interrupcionesFijas cfg.setup_params + tiempoComidas inp +
      interrupcionesVariables cfg.setup_params inp.interrupciones)

/-- The base interruption breakdown dictionary built at app.py lines 578
and 606: fixed calibration, fixed other, meals, then the variable detail. -/
def baseInterrupcionesDict (cfg : MachineConfig) (inp : ShiftInput) :
    List (String × ℚ) :=
  [("Calibración Fija", cfg.setup_params.calibracion.getD 0),
   ("Otros Fijos", cfg.setup_params.otros.getD 0),
   ("Comidas", tiempoComidas inp)] ++
  detalleInterrupcionesVariables cfg.setup_params inp.interrupciones

/-- The diagnostic data rendered on the `tiempo_neto_disponible <= 0`
error branch (app.py lines 572-580): the values passed to
`render_analysis_table(turno_minutos, 0, tiempo_perdido_total_err,
eficiencia_err)` and the `interrupciones_dict_error` breakdown. -/
structure ErrorDiag where
  turno_minutos : ℚ
  tiempo_productivo : ℚ
  tiempo_perdido_total : ℚ
  eficiencia : ℚ
  interrupciones_dict : List (String × ℚ)
deriving DecidableEq, Repr

/-- The estimation outputs of the success branch (app.py lines 582-611). -/
structure CalcResult where
  turno_minutos : ℚ
  interrupciones_fijas : ℚ
  tiempo_comidas : ℚ
  interrupciones_variables : ℚ
  tiempo_neto_disponible : ℚ
  ratio_productivo : ℚ
  tiempo_efectivo_produccion : ℚ
  tiempo_detenido_ciclos : ℚ
  unidades_estimadas : ℚ
  peso_total_kg : ℚ
  eficiencia_oee : ℚ
  tiempo_perdido_total : ℚ
  interrupciones_dict : List (String × ℚ)
deriving DecidableEq, Repr

/-- Engine outcome: either the recoverable interruptions-exceed-shift
diagnostic or a full estimation result. -/
inductive EngineResult where
  | interruptionsExceedShift : ErrorDiag → EngineResult
  | ok : CalcResult → EngineResult
deriving DecidableEq, Repr

/-- The error-branch diagnostic of app.py lines 573-579. -/
def errResult (cfg : MachineConfig) (inp : ShiftInput) : ErrorDiag :=
  { turno_minutos := turnoMinutos inp
    tiempo_productivo := 0
    tiempo_perdido_total :=
      interrupcionesFijas cfg.setup_params + tiempoComidas inp +
        interrupcionesVariables cfg.setup_params inp.interrupciones
    eficiencia := 0
    interrupciones_dict := baseInterrupcionesDict cfg inp }

/-- The success-branch computation of app.py lines 582-608:
`ratio_productivo = production_params.get("ratio_productivo", 1.0)`,
`tiempo_efectivo_produccion`, `tiempo_detenido_ciclos`,
`unidades_estimadas`, `peso_total_kg` (0 unless the unit weight is
positive), `eficiencia_oee` (0 unless `turno_minutos` is positive),
`tiempo_perdido_total`, and the interruption dictionary to which
"Paradas por Ciclo" is appended only for Manual / Semi-Automática
machines with positive `tiempo_detenido_ciclos`. -/
def okResult (cfg : MachineConfig) (inp : ShiftInput) : CalcResult :=
  let ratio_productivo := cfg.production_params.ratio_productivo.getD 1
  let tiempo_neto_disponible := tiempoNetoDisponible cfg inp
  let tiempo_efectivo_produccion := tiempo_neto_disponible * ratio_productivo
  let tiempo_detenido_ciclos := tiempo_neto_disponible * (1 - ratio_productivo)
  let unidades_por_minuto := cfg.production_params.unidades_por_minuto.getD 0
  let peso_por_unidad_g := cfg.production_params.peso_por_unidad.getD 0
  let unidades_estimadas := unidades_por_minuto * tiempo_efectivo_produccion
  let peso_total_kg :=
    if 0 < peso_por_unidad_g then unidades_estimadas * peso_por_unidad_g / 1000 else 0
  let eficiencia_oee :=
    if 0 < turnoMinutos inp then tiempo_efectivo_produccion / turnoMinutos inp * 100 else 0
  let tiempo_perdido_total := turnoMinutos inp - tiempo_efectivo_produccion
  { turno_minutos := turnoMinutos inp
    interrupciones_fijas := interrupcionesFijas cfg.setup_params
    tiempo_comidas := tiempoComidas inp
    interrupciones_variables := interrupcionesVariables cfg.setup_params inp.interrupciones
    tiempo_neto_disponible := tiempo_neto_disponible
    ratio_productivo := ratio_productivo
    tiempo_efectivo_produccion := tiempo_efectivo_produccion
    tiempo_detenido_ciclos := tiempo_detenido_ciclos
    unidades_estimadas := unidades_estimadas
    peso_total_kg := peso_total_kg
    eficiencia_oee := eficiencia_oee
    tiempo_perdido_total := tiempo_perdido_total
    interrupciones_dict :=
      if (cfg.type = .manual ∨ cfg.type = .semiAutomatic) ∧ 0 < tiempo_detenido_ciclos then
        baseInterrupcionesDict cfg inp ++ [("Paradas por Ciclo", tiempo_detenido_ciclos)]
      else
        baseInterrupcionesDict cfg inp }

/-- The estimation engine (app.py lines 546-611): fail with the
interruptions-exceed-shift diagnostic when `tiempo_neto_disponible <= 0`
(line 572), otherwise produce the full estimation result. -/
def estimate (cfg : MachineConfig) (inp : ShiftInput) : EngineResult :=
  if tiempoNetoDisponible cfg inp ≤ 0 then
    .interruptionsExceedShift (errResult cfg inp)
  else
    .ok (okResult cfg inp)

/-- Construction of `production_params` by the configuration page
(app.py lines 317-333 for a new machine, 460-477 when editing): for
Manual / Semi-Automática, clamp the productive cycle seconds to the total
cycle seconds and derive the ratio (0 when the total is 0); for
Automática, fix the ratio to 1.0 and both cycle fields to 0. -/
def mkProductionParams (t : MachineType) (upm peso cycle_seconds productive_seconds : ℚ) :
    ProductionParams :=
  if t = .manual ∨ t = .semiAutomatic then
    let productive :=
      if cycle_seconds < productive_seconds then cycle_seconds else productive_seconds
    { unidades_por_minuto := some upm
      peso_por_unidad := some peso
      ciclo_total := some cycle_seconds
      ciclo_productivo := some productive
      ratio_productivo :=
        some (if 0 < cycle_seconds then productive / cycle_seconds else 0) }
  else
    { unidades_por_minuto := some upm
      peso_por_unidad := some peso
      ciclo_total := some 0
      ciclo_productivo := some 0
      ratio_productivo := some 1 }

/-! ## Helper lemmas -/

theorem eventName_ne_empty (k : EventKind) : eventName k ≠ "" := by
  cases k <;> decide

theorem eventStep_fst_le (sp : SetupParams) (acc : ℚ × List (String × ℚ))
    (e : EventKind × Nat) : acc.1 ≤ (eventStep sp acc e).1 := by
  unfold eventStep
  dsimp only
  split
  · split
    · next h2 => dsimp only; linarith [h2.1]
    · exact le_refl _
  · split
    · next h2 => exact absurd rfl h2.2
    · exact le_refl _

theorem foldl_eventStep_fst_le (sp : SetupParams) (l : List (EventKind × Nat))
    (acc : ℚ × List (String × ℚ)) : acc.1 ≤ (l.foldl (eventStep sp) acc).1 := by
  induction l generalizing acc with
  | nil => exact le_refl _
  | cons e t ih => exact le_trans (eventStep_fst_le sp acc e) (ih _)

theorem interrupcionesVariables_nonneg (sp : SetupParams) (i : Interrupciones) :
    0 ≤ interrupcionesVariables sp i :=
  foldl_eventStep_fst_le sp (presentEvents i) (0, [])

theorem estimate_ok_of_pos (cfg : MachineConfig) (inp : ShiftInput)
    (h : 0 < tiempoNetoDisponible cfg inp) :
    estimate cfg inp = .ok (okResult cfg inp) := by
  simp [estimate, not_le.mpr h]

theorem estimate_err_of_nonpos (cfg : MachineConfig) (inp : ShiftInput)
    (h : tiempoNetoDisponible cfg inp ≤ 0) :
    estimate cfg inp = .interruptionsExceedShift (errResult cfg inp) := by
  simp [estimate, h]

/-! ## Concrete inputs used as witnesses -/

/-- A machine with every optional field absent. -/
def cfgOverbooked : MachineConfig :=
  { type := .manual, setup_params := {}, production_params := {} }

/-- A one-hour shift with both meals: 75 interruption minutes exceed 60. -/
def inpOverbooked : ShiftInput :=
  { turno_horas := 1, desayuno := true, almuerzo := true, interrupciones := {} }

/-- An Automática machine as the configuration page stores it. -/
def cfgC3 : MachineConfig :=
  { type := .automatic
    setup_params := { calibracion := some 10, otros := some 30,
                      cambio_rollo := some 4, cambio_producto := some 15 }
    production_params := mkProductionParams .automatic 48 (453/10) 0 0 }

/-- An eight-hour shift, no meals, no variable events. -/
def inpC3 : ShiftInput :=
  { turno_horas := 8, desayuno := false, almuerzo := false,
    interrupciones := { cambios_rollo := some 0, cambios_producto := some 0 } }

/-- Evaluation of the net available minutes at the C1 witness input:
60 shift minutes minus 75 meal minutes. -/
theorem netOverbooked_eq : tiempoNetoDisponible cfgOverbooked inpOverbooked = -15 := by
  norm_num [tiempoNetoDisponible, turnoMinutos, interrupcionesFijas, tiempoComidas,
    interrupcionesVariables, variablesResult, presentEvents, cfgOverbooked, inpOverbooked]

theorem netOverbooked_nonpos : tiempoNetoDisponible cfgOverbooked inpOverbooked ≤ 0 := by
  rw [netOverbooked_eq]; norm_num

/-- Evaluation of the net available minutes at the C3 witness input. -/
theorem netC3_eq : tiempoNetoDisponible cfgC3 inpC3 = 440 := by
  norm_num [tiempoNetoDisponible, turnoMinutos, interrupcionesFijas, tiempoComidas,
    interrupcionesVariables, variablesResult, presentEvents, eventStep, cfgC3, inpC3]

theorem netC3_pos : 0 < tiempoNetoDisponible cfgC3 inpC3 := by
  rw [netC3_eq]; norm_num

/-! ## Claims -/

/-- C1: the engine fails with `InterruptionsExceedShift` exactly when
`netAvailableMinutes = shiftMinutes - (fixedInterruptionMinutes + mealMinutes
+ variableInterruptionMinutes)` is ≤ 0, and in that case the diagnostic it
yields has zero productive minutes, zero efficiency, and a populated
breakdown of the computed interruption totals (never an empty one). -/
theorem C1_interruptions_exceed_shift (cfg : MachineConfig) (inp : ShiftInput) :
    ((∃ d, estimate cfg inp = .interruptionsExceedShift d) ↔
      turnoMinutos inp -
        (interrupcionesFijas cfg.setup_params + tiempoComidas inp +
          interrupcionesVariables cfg.setup_params inp.interrupciones) ≤ 0) ∧
    (∀ d, estimate cfg inp = .interruptionsExceedShift d →
      d.tiempo_productivo = 0 ∧ d.eficiencia = 0 ∧
      d.interrupciones_dict = baseInterrupcionesDict cfg inp ∧
      d.interrupciones_dict ≠ []) := by
  by_cases h : tiempoNetoDisponible cfg inp ≤ 0
  · constructor
    · exact ⟨fun _ => h, fun _ => ⟨errResult cfg inp, estimate_err_of_nonpos cfg inp h⟩⟩
    · intro d hd
      rw [estimate_err_of_nonpos cfg inp h] at hd
      injection hd with hd
      subst hd
      refine ⟨rfl, rfl, rfl, ?_⟩
      simp [errResult, baseInterrupcionesDict]
  · constructor
    · constructor
      · rintro ⟨d, hd⟩
        rw [estimate_ok_of_pos cfg inp (not_le.mp h)] at hd
        exact absurd hd (by simp)
      · intro hle
        exact absurd hle h
    · intro d hd
      rw [estimate_ok_of_pos cfg inp (not_le.mp h)] at hd
      exact absurd hd (by simp)

/-- Witness for C1 at a concrete input: a one-hour shift with both meals
included (75 minutes of interruptions against a 60-minute shift). -/
theorem C1_interruptions_exceed_shift_witness :
    estimate cfgOverbooked inpOverbooked = .interruptionsExceedShift (errResult cfgOverbooked inpOverbooked) ∧
    (errResult cfgOverbooked inpOverbooked).tiempo_productivo = 0 ∧
    (errResult cfgOverbooked inpOverbooked).eficiencia = 0 ∧
    (errResult cfgOverbooked inpOverbooked).interrupciones_dict ≠ [] := by
  have h := (C1_interruptions_exceed_shift cfgOverbooked inpOverbooked).2 (errResult cfgOverbooked inpOverbooked)
    (estimate_err_of_nonpos cfgOverbooked inpOverbooked netOverbooked_nonpos)
  exact ⟨estimate_err_of_nonpos cfgOverbooked inpOverbooked netOverbooked_nonpos, h.1, h.2.1, h.2.2.2⟩

/-- C3: on the success path (`netAvailableMinutes > 0`) the engine's outputs
satisfy exactly the documented formulas: productive minutes, cycle-stopped
minutes, estimated units, estimated weight (0 unless the unit weight is
positive), efficiency percent (0 unless the shift minutes are positive), and
lost minutes. -/
theorem C3_success_formulas (cfg : MachineConfig) (inp : ShiftInput)
    (h : 0 < tiempoNetoDisponible cfg inp) :
    ∃ r, estimate cfg inp = .ok r ∧
      r.tiempo_efectivo_produccion =
        tiempoNetoDisponible cfg inp * cfg.production_params.ratio_productivo.getD 1 ∧
      r.tiempo_detenido_ciclos =
        tiempoNetoDisponible cfg inp * (1 - cfg.production_params.ratio_productivo.getD 1) ∧
      r.unidades_estimadas =
        cfg.production_params.unidades_por_minuto.getD 0 * r.tiempo_efectivo_produccion ∧
      r.peso_total_kg =
        (if 0 < cfg.production_params.peso_por_unidad.getD 0 then
          r.unidades_estimadas * cfg.production_params.peso_por_unidad.getD 0 / 1000
        else 0) ∧
      r.eficiencia_oee =
        (if 0 < turnoMinutos inp then
          r.tiempo_efectivo_produccion / turnoMinutos inp * 100
        else 0) ∧
      r.tiempo_perdido_total = turnoMinutos inp - r.tiempo_efectivo_produccion :=
  ⟨okResult cfg inp, estimate_ok_of_pos cfg inp h, rfl, rfl, rfl, rfl, rfl, rfl⟩

/-- Witness for C3 at a concrete input: an Automática machine on an
eight-hour shift with no meals and no events. -/
theorem C3_success_formulas_witness :
    (0 < tiempoNetoDisponible cfgC3 inpC3) ∧
    (∃ r, estimate cfgC3 inpC3 = .ok r ∧
      r.tiempo_efectivo_produccion =
        tiempoNetoDisponible cfgC3 inpC3 *
          cfgC3.production_params.ratio_productivo.getD 1) :=
  ⟨netC3_pos,
   Exists.imp (fun _ hr => ⟨hr.1, hr.2.1⟩) (C3_success_formulas cfgC3 inpC3 netC3_pos)⟩

/-- C5: whenever `netAvailableMinutes > 0`, the productive minutes and the
cycle-stopped minutes sum exactly to the net available minutes. -/
theorem C5_time_conservation (cfg : MachineConfig) (inp : ShiftInput)
    (h : 0 < tiempoNetoDisponible cfg inp) :
    ∃ r, estimate cfg inp = .ok r ∧
      r.tiempo_efectivo_produccion + r.tiempo_detenido_ciclos =
        tiempoNetoDisponible cfg inp := by
  refine ⟨okResult cfg inp, estimate_ok_of_pos cfg inp h, ?_⟩
  change tiempoNetoDisponible cfg inp * cfg.production_params.ratio_productivo.getD 1 +
      tiempoNetoDisponible cfg inp * (1 - cfg.production_params.ratio_productivo.getD 1) =
      tiempoNetoDisponible cfg inp
  ring

/-- Witness for C5 at a concrete input. -/
theorem C5_time_conservation_witness :
    (0 < tiempoNetoDisponible cfgC3 inpC3) ∧
    (∃ r, estimate cfgC3 inpC3 = .ok r ∧
      r.tiempo_efectivo_produccion + r.tiempo_detenido_ciclos =
        tiempoNetoDisponible cfgC3 inpC3) :=
  ⟨netC3_pos, C5_time_conservation cfgC3 inpC3 netC3_pos⟩

/-! ## C2: missing required production parameters -/

/-- A stored profile whose `production_params` lacks the required
`unidades_por_minuto` key (a profile saved under an older schema). -/
def cfgC2 : MachineConfig :=
  { type := .manual
    setup_params := { calibracion := some 10, otros := some 30 }
    production_params :=
      { peso_por_unidad := some (453/10), ciclo_total := some 32,
        ciclo_productivo := some 27, ratio_productivo := some (27/32) } }

/-- An eight-hour shift, no meals, no variable events. -/
def inpC2 : ShiftInput :=
  { turno_horas := 8, desayuno := false, almuerzo := false, interrupciones := {} }

theorem netC2_eq : tiempoNetoDisponible cfgC2 inpC2 = 440 := by
  norm_num [tiempoNetoDisponible, turnoMinutos, interrupcionesFijas, tiempoComidas,
    interrupcionesVariables, variablesResult, presentEvents, cfgC2, inpC2]

theorem netC2_pos : 0 < tiempoNetoDisponible cfgC2 inpC2 := by
  rw [netC2_eq]; norm_num

/-- C2 counterexample: on a profile whose `production_params` has no
`unidades_por_minuto`, the engine succeeds (it signals nothing) and just
computes with the dictionary-get default 0, yielding 0 estimated units —
it does NOT fail with a missing-required-parameter error naming the field. -/
theorem C2_counterexample_silent_default :
    cfgC2.production_params.unidades_por_minuto = none ∧
    estimate cfgC2 inpC2 = .ok (okResult cfgC2 inpC2) ∧
    (okResult cfgC2 inpC2).unidades_estimadas = 0 := by
  refine ⟨rfl, estimate_ok_of_pos cfgC2 inpC2 netC2_pos, ?_⟩
  show cfgC2.production_params.unidades_por_minuto.getD 0 *
      (tiempoNetoDisponible cfgC2 inpC2 * cfgC2.production_params.ratio_productivo.getD 1) = 0
  norm_num [cfgC2]

/-- C2 amended: the engine reads `unidades_por_minuto` and `peso_por_unidad`
with a silent dictionary-get default of 0 (just as it defaults optional setup
fields to 0): filling an absent required production field with an explicit 0
leaves the engine output unchanged, and on a profile with the units field
absent the engine still succeeds with 0 estimated units. -/
theorem C2_silent_production_defaults (cfg : MachineConfig) (inp : ShiftInput) :
    (estimate
      { cfg with production_params :=
          { cfg.production_params with
              unidades_por_minuto := some (cfg.production_params.unidades_por_minuto.getD 0),
              peso_por_unidad := some (cfg.production_params.peso_por_unidad.getD 0) } } inp
      = estimate cfg inp) ∧
    (cfg.production_params.unidades_por_minuto = none →
      0 < tiempoNetoDisponible cfg inp →
      ∃ r, estimate cfg inp = .ok r ∧ r.unidades_estimadas = 0) := by
  refine ⟨rfl, fun hnone hpos => ⟨okResult cfg inp, estimate_ok_of_pos cfg inp hpos, ?_⟩⟩
  show cfg.production_params.unidades_por_minuto.getD 0 *
      (tiempoNetoDisponible cfg inp * cfg.production_params.ratio_productivo.getD 1) = 0
  rw [hnone]
  simp

/-- Witness for the amended C2 at the concrete schema-missing profile. -/
theorem C2_silent_production_defaults_witness :
    cfgC2.production_params.unidades_por_minuto = none ∧
    (∃ r, estimate cfgC2 inpC2 = .ok r ∧ r.unidades_estimadas = 0) :=
  ⟨rfl, (C2_silent_production_defaults cfgC2 inpC2).2 rfl netC2_pos⟩

/-! ## C4: the variable-interruption loop -/

/-- Every setup duration read with a default of 0 is non-negative — the
property the configuration UI enforces with non-negative number inputs. -/
def NonnegSetup (sp : SetupParams) : Prop :=
  0 ≤ sp.calibracion.getD 0 ∧ 0 ≤ sp.otros.getD 0 ∧ 0 ≤ sp.cambio_rollo.getD 0 ∧
  0 ≤ sp.cambio_producto.getD 0 ∧ 0 ≤ sp.cambio_cuchillo.getD 0 ∧
  0 ≤ sp.cambio_perforador.getD 0 ∧ 0 ≤ sp.cambio_paquete.getD 0 ∧
  0 ≤ sp.empaque.getD 0

theorem eventDuration_nonneg (sp : SetupParams) (h : NonnegSetup sp) (k : EventKind) :
    0 ≤ eventDuration sp k := by
  cases k with
  | rollo => exact h.2.2.1
  | producto => exact h.2.2.2.1
  | cuchillo => exact h.2.2.2.2.1
  | perforador => exact h.2.2.2.2.2.1
  | paquete => exact h.2.2.2.2.2.2.1
  | empaque => exact div_nonneg h.2.2.2.2.2.2.2 (by norm_num)

/-- With non-negative setup durations, one loop iteration always adds
`count * duration` to the accumulated minutes (the skipped iterations add
exactly 0) and appends the labeled item exactly when that product is
positive. -/
theorem eventStep_eq (sp : SetupParams) (h : NonnegSetup sp)
    (acc : ℚ × List (String × ℚ)) (e : EventKind × Nat) :
    eventStep sp acc e =
      (acc.1 + (e.2 : ℚ) * eventDuration sp e.1,
       acc.2 ++
         (if 0 < (e.2 : ℚ) * eventDuration sp e.1 then
           [(eventName e.1 ++ " (" ++ toString e.2 ++ "x)",
             (e.2 : ℚ) * eventDuration sp e.1)]
         else [])) := by
  unfold eventStep
  dsimp only
  split
  · next hn =>
    dsimp only
    split
    · next hc =>
      rw [if_pos hc.1]
    · next hc =>
      have hnn : 0 ≤ (e.2 : ℚ) * eventDuration sp e.1 :=
        mul_nonneg (by positivity) (eventDuration_nonneg sp h e.1)
      have hz : (e.2 : ℚ) * eventDuration sp e.1 = 0 := by
        rcases not_and_or.mp hc with h1 | h2
        · exact le_antisymm (not_lt.mp h1) hnn
        · exact absurd (eventName_ne_empty e.1) h2
      rw [hz]
      simp
  · next hn =>
    have he : e.2 = 0 := Nat.eq_zero_of_not_pos hn
    dsimp only
    rw [he]
    simp

/-- Unrolling the loop: the accumulated minutes are the sum of
`count * duration` over the iterated entries, and the recorded line items
are exactly the positive ones in order. -/
theorem foldl_eventStep_spec (sp : SetupParams) (h : NonnegSetup sp)
    (l : List (EventKind × Nat)) (acc : ℚ × List (String × ℚ)) :
    l.foldl (eventStep sp) acc =
      (acc.1 + (l.map fun e => (e.2 : ℚ) * eventDuration sp e.1).sum,
       acc.2 ++ l.filterMap (fun e =>
         if 0 < (e.2 : ℚ) * eventDuration sp e.1 then
           some (eventName e.1 ++ " (" ++ toString e.2 ++ "x)",
                 (e.2 : ℚ) * eventDuration sp e.1)
         else none)) := by
  induction l generalizing acc with
  | nil => simp
  | cons e t ih =>
    rw [List.foldl_cons, ih, eventStep_eq sp h acc e]
    dsimp only
    rw [List.map_cons, List.sum_cons, List.filterMap_cons]
    split
    · refine congrArg₂ Prod.mk ?_ ?_
      · ring
      · simp
    · refine congrArg₂ Prod.mk ?_ ?_
      · ring
      · simp

/-- C4: for the entries of `interruptionCounts`, the engine accumulates
`count * per-event duration` into the variable interruption minutes (the
duration looked up via the fixed kind-to-field mapping `eventDuration`,
packaging seconds divided by 60), and records a "<EventName> (<count>x)"
line item exactly for the entries whose resulting minutes are positive;
entries with count 0 or duration 0 contribute nothing and no item. -/
theorem C4_variable_interruption_accumulation (sp : SetupParams) (i : Interrupciones)
    (h : NonnegSetup sp) :
    interrupcionesVariables sp i =
      ((presentEvents i).map fun e => (e.2 : ℚ) * eventDuration sp e.1).sum ∧
    detalleInterrupcionesVariables sp i =
      (presentEvents i).filterMap (fun e =>
        if 0 < (e.2 : ℚ) * eventDuration sp e.1 then
          some (eventName e.1 ++ " (" ++ toString e.2 ++ "x)",
                (e.2 : ℚ) * eventDuration sp e.1)
        else none) ∧
    (∀ (acc : ℚ × List (String × ℚ)) (k : EventKind) (n : Nat),
      n = 0 ∨ eventDuration sp k = 0 → eventStep sp acc (k, n) = acc) := by
  have hspec := foldl_eventStep_spec sp h (presentEvents i) (0, [])
  refine ⟨?_, ?_, ?_⟩
  · show (variablesResult sp i).1 = _
    rw [variablesResult, hspec]
    simp
  · show (variablesResult sp i).2 = _
    rw [variablesResult,  hspec]
    simp
  · intro acc k n hkn
    have hz : (n : ℚ) * eventDuration sp k = 0 := by
      rcases hkn with h0 | h0 <;> simp [h0]
    rw [eventStep_eq sp h acc (k, n)]
    dsimp only
    rw [hz]
    simp

/-- Setup parameters for the C4 witness. -/
def spC4 : SetupParams :=
  { cambio_rollo := some 4, cambio_producto := some 15, empaque := some 60 }

/-- Event counts for the C4 witness: 2 roll changes, 0 product changes,
3 packaging changes. -/
def iC4 : Interrupciones :=
  { cambios_rollo := some 2, cambios_producto := some 0, cambios_empaque := some 3 }

/-- Witness for C4 at a concrete input. -/
theorem C4_variable_interruption_accumulation_witness :
    NonnegSetup spC4 ∧
    interrupcionesVariables spC4 iC4 =
      ((presentEvents iC4).map fun e => (e.2 : ℚ) * eventDuration spC4 e.1).sum :=
  ⟨by norm_num [NonnegSetup, spC4],
   (C4_variable_interruption_accumulation spC4 iC4 (by norm_num [NonnegSetup, spC4])).1⟩

/-! ## C6: efficiency bounds -/

theorem tiempoComidas_nonneg (inp : ShiftInput) : 0 ≤ tiempoComidas inp := by
  unfold tiempoComidas
  split <;> split <;> norm_num

theorem turnoMinutos_pos (inp : ShiftInput) (hh : 1 ≤ inp.turno_horas) :
    0 < turnoMinutos inp := by
  unfold turnoMinutos
  nlinarith

/-- C6: on validated inputs (derived productive ratio in [0,1], non-negative
fixed setup minutes, shift hours in [1,24]) the engine's efficiency percent
lies in [0,100] whenever the net available minutes are positive, and it is
exactly 0 whenever the engine fails with the interruptions-exceed-shift
diagnostic. -/
theorem C6_efficiency_bounds (cfg : MachineConfig) (inp : ShiftInput)
    (hr0 : 0 ≤ cfg.production_params.ratio_productivo.getD 1)
    (hr1 : cfg.production_params.ratio_productivo.getD 1 ≤ 1)
    (hcal : 0 ≤ cfg.setup_params.calibracion.getD 0)
    (hotros : 0 ≤ cfg.setup_params.otros.getD 0)
    (hh1 : 1 ≤ inp.turno_horas) (hh24 : inp.turno_horas ≤ 24) :
    (0 < tiempoNetoDisponible cfg inp →
      ∃ r, estimate cfg inp = .ok r ∧ 0 ≤ r.eficiencia_oee ∧ r.eficiencia_oee ≤ 100) ∧
    (tiempoNetoDisponible cfg inp ≤ 0 →
      ∃ d, estimate cfg inp = .interruptionsExceedShift d ∧ d.eficiencia = 0) := by
  constructor
  · intro hpos
    refine ⟨okResult cfg inp, estimate_ok_of_pos cfg inp hpos, ?_, ?_⟩
    all_goals
      have hshift : 0 < turnoMinutos inp := turnoMinutos_pos inp hh1
      have hfield : (okResult cfg inp).eficiencia_oee =
          tiempoNetoDisponible cfg inp * cfg.production_params.ratio_productivo.getD 1 /
            turnoMinutos inp * 100 := by
        show (if 0 < turnoMinutos inp then
            tiempoNetoDisponible cfg inp * cfg.production_params.ratio_productivo.getD 1 /
              turnoMinutos inp * 100
          else 0) = _
        rw [if_pos hshift]
      rw [hfield]
    · positivity
    · have hnet_le : tiempoNetoDisponible cfg inp ≤ turnoMinutos inp := by
        have hvar := interrupcionesVariables_nonneg cfg.setup_params inp.interrupciones
        have hcom := tiempoComidas_nonneg inp
        unfold tiempoNetoDisponible interrupcionesFijas
        unfold interrupcionesFijas at *
        linarith
      have hprod_le : tiempoNetoDisponible cfg inp *
          cfg.production_params.ratio_productivo.getD 1 ≤ turnoMinutos inp := by
        nlinarith
      have hdiv : tiempoNetoDisponible cfg inp *
          cfg.production_params.ratio_productivo.getD 1 / turnoMinutos inp ≤ 1 :=
        (div_le_one hshift).mpr hprod_le
      linarith
  · intro hle
    exact ⟨errResult cfg inp, estimate_err_of_nonpos cfg inp hle, rfl⟩

/-- Witness for C6 at the concrete Automática machine and eight-hour shift. -/
theorem C6_efficiency_bounds_witness :
    (0 < tiempoNetoDisponible cfgC3 inpC3) ∧
    (∃ r, estimate cfgC3 inpC3 = .ok r ∧ 0 ≤ r.eficiencia_oee ∧ r.eficiencia_oee ≤ 100) :=
  ⟨netC3_pos,
   (C6_efficiency_bounds cfgC3 inpC3
      (by rw [show cfgC3.production_params.ratio_productivo = some 1 from rfl]; norm_num)
      (by rw [show cfgC3.production_params.ratio_productivo = some 1 from rfl]; norm_num)
      (by norm_num [cfgC3])
      (by norm_num [cfgC3])
      (by norm_num [inpC3])
      (by norm_num [inpC3])).1 netC3_pos⟩

/-! ## C7: the "Paradas por Ciclo" line item -/

/-- A Manual machine with a 32-second cycle of which 27 seconds are
productive, as stored by the configuration page. -/
def cfgC7 : MachineConfig :=
  { type := .manual
    setup_params := { calibracion := some 10, otros := some 30 }
    production_params := mkProductionParams .manual 48 (453/10) 32 27 }

/-- An eight-hour shift, no meals, no variable events. -/
def inpC7 : ShiftInput :=
  { turno_horas := 8, desayuno := false, almuerzo := false, interrupciones := {} }

theorem netC7_eq : tiempoNetoDisponible cfgC7 inpC7 = 440 := by
  norm_num [tiempoNetoDisponible, turnoMinutos, interrupcionesFijas, tiempoComidas,
    interrupcionesVariables, variablesResult, presentEvents, cfgC7, inpC7]

theorem netC7_pos : 0 < tiempoNetoDisponible cfgC7 inpC7 := by
  rw [netC7_eq]; norm_num

/-- C7: a successful estimate's interruption breakdown is the base breakdown
plus a "Paradas por Ciclo" line appended exactly when the machine type is
Manual or Semi-Automática and the cycle-stopped minutes are positive;
Automática construction always stores ratio 1.0, and an Automática machine
whose production parameters come from that construction has 0 cycle-stopped
minutes and no "Paradas por Ciclo" line. -/
theorem C7_cycle_stoppage_line (cfg : MachineConfig) (inp : ShiftInput) :
    (∀ r, estimate cfg inp = .ok r →
      r.interrupciones_dict =
        baseInterrupcionesDict cfg inp ++
          (if (cfg.type = .manual ∨ cfg.type = .semiAutomatic) ∧
              0 < r.tiempo_detenido_ciclos then
            [("Paradas por Ciclo", r.tiempo_detenido_ciclos)]
          else [])) ∧
    (∀ upm peso c p : ℚ,
      (mkProductionParams .automatic upm peso c p).ratio_productivo = some 1) ∧
    (cfg.type = .automatic →
      ∀ upm peso c p : ℚ,
        cfg.production_params = mkProductionParams .automatic upm peso c p →
        0 < tiempoNetoDisponible cfg inp →
        ∃ r, estimate cfg inp = .ok r ∧ r.tiempo_detenido_ciclos = 0 ∧
          r.interrupciones_dict = baseInterrupcionesDict cfg inp) := by
  refine ⟨?_, fun upm peso c p => rfl, ?_⟩
  · intro r hr
    by_cases hnet : tiempoNetoDisponible cfg inp ≤ 0
    · rw [estimate_err_of_nonpos cfg inp hnet] at hr
      exact absurd hr (by simp)
    · rw [estimate_ok_of_pos cfg inp (not_le.mp hnet)] at hr
      injection hr with hr
      subst hr
      show (if (cfg.type = .manual ∨ cfg.type = .semiAutomatic) ∧
            0 < tiempoNetoDisponible cfg inp *
              (1 - cfg.production_params.ratio_productivo.getD 1) then
          baseInterrupcionesDict cfg inp ++
            [("Paradas por Ciclo",
              tiempoNetoDisponible cfg inp *
                (1 - cfg.production_params.ratio_productivo.getD 1))]
        else baseInterrupcionesDict cfg inp) =
        baseInterrupcionesDict cfg inp ++
          (if (cfg.type = .manual ∨ cfg.type = .semiAutomatic) ∧
              0 < tiempoNetoDisponible cfg inp *
                (1 - cfg.production_params.ratio_productivo.getD 1) then
            [("Paradas por Ciclo",
              tiempoNetoDisponible cfg inp *
                (1 - cfg.production_params.ratio_productivo.getD 1))]
          else [])
      by_cases hc : (cfg.type = .manual ∨ cfg.type = .semiAutomatic) ∧
          0 < tiempoNetoDisponible cfg inp *
            (1 - cfg.production_params.ratio_productivo.getD 1)
      · rw [if_pos hc, if_pos hc]
      · rw [if_neg hc, if_neg hc, List.append_nil]
  · intro hauto upm peso c p hpp hpos
    have hr1 : cfg.production_params.ratio_productivo = some 1 := by rw [hpp]; rfl
    have hdet : tiempoNetoDisponible cfg inp *
        (1 - cfg.production_params.ratio_productivo.getD 1) = 0 := by
      rw [hr1]
      norm_num
    refine ⟨okResult cfg inp, estimate_ok_of_pos cfg inp hpos, hdet, ?_⟩
    show (if (cfg.type = .manual ∨ cfg.type = .semiAutomatic) ∧
          0 < tiempoNetoDisponible cfg inp *
            (1 - cfg.production_params.ratio_productivo.getD 1) then
        baseInterrupcionesDict cfg inp ++
          [("Paradas por Ciclo",
            tiempoNetoDisponible cfg inp *
              (1 - cfg.production_params.ratio_productivo.getD 1))]
      else baseInterrupcionesDict cfg inp) = baseInterrupcionesDict cfg inp
    rw [if_neg]
    intro hc
    rw [hdet] at hc
    exact absurd hc.2 (by norm_num)

/-- Witness for C7: the concrete Manual machine has a positive cycle-stopped
time and its breakdown carries the appended "Paradas por Ciclo" line. -/
theorem C7_cycle_stoppage_line_witness :
    estimate cfgC7 inpC7 = .ok (okResult cfgC7 inpC7) ∧
    (okResult cfgC7 inpC7).interrupciones_dict =
      baseInterrupcionesDict cfgC7 inpC7 ++
        (if (cfgC7.type = .manual ∨ cfgC7.type = .semiAutomatic) ∧
            0 < (okResult cfgC7 inpC7).tiempo_detenido_ciclos then
          [("Paradas por Ciclo", (okResult cfgC7 inpC7).tiempo_detenido_ciclos)]
        else []) :=
  ⟨estimate_ok_of_pos cfgC7 inpC7 netC7_pos,
   (C7_cycle_stoppage_line cfgC7 inpC7).1 (okResult cfgC7 inpC7)
     (estimate_ok_of_pos cfgC7 inpC7 netC7_pos)⟩

/-! ## C8: profile construction and the derived ratio -/

theorem clamp_ratio_mem_unit (c p : ℚ) (hp : 0 ≤ p) (hc : 0 ≤ c) :
    0 ≤ (if 0 < c then (if c < p then c else p) / c else 0) ∧
    (if 0 < c then (if c < p then c else p) / c else 0) ≤ 1 := by
  by_cases h0 : 0 < c
  · have hcl0 : 0 ≤ (if c < p then c else p) := by
      split
      · exact hc
      · exact hp
    have hclc : (if c < p then c else p) ≤ c := by
      split
      · exact le_refl c
      · next h => exact le_of_not_lt h
    rw [if_pos h0]
    exact ⟨div_nonneg hcl0 h0.le, (div_le_one h0).mpr hclc⟩
  · rw [if_neg h0]
    norm_num

/-- C8: profile construction clamps the productive cycle seconds to the
total cycle seconds for Manual / Semi-Automática machines (silently, not
rejecting) and derives `ratio_productivo = productive / total` with a
fallback of 0 when the total is 0; Automática machines get ratio 1.0 and
zero cycle fields; in all cases the stored ratio lies in [0, 1]. -/
theorem C8_profile_construction (upm peso c p : ℚ) (hp : 0 ≤ p) (hc : 0 ≤ c) :
    (∀ t, (t = .manual ∨ t = .semiAutomatic) →
      (mkProductionParams t upm peso c p).ciclo_total = some c ∧
      (mkProductionParams t upm peso c p).ciclo_productivo =
        some (if c < p then c else p) ∧
      (mkProductionParams t upm peso c p).ratio_productivo =
        some (if 0 < c then (if c < p then c else p) / c else 0)) ∧
    ((mkProductionParams .automatic upm peso c p).ratio_productivo = some 1 ∧
     (mkProductionParams .automatic upm peso c p).ciclo_total = some 0 ∧
     (mkProductionParams .automatic upm peso c p).ciclo_productivo = some 0) ∧
    (∀ t r, (mkProductionParams t upm peso c p).ratio_productivo = some r →
      0 ≤ r ∧ r ≤ 1) := by
  refine ⟨?_, ⟨rfl, rfl, rfl⟩, ?_⟩
  · intro t ht
    unfold mkProductionParams
    rw [if_pos ht]
    exact ⟨rfl, rfl, rfl⟩
  · intro t r hr
    cases t with
    | manual =>
      have hr2 : (if 0 < c then (if c < p then c else p) / c else 0) = r := by
        have : (mkProductionParams .manual upm peso c p).ratio_productivo =
            some (if 0 < c then (if c < p then c else p) / c else 0) := by
          unfold mkProductionParams
          rw [if_pos (Or.inl rfl)]
        rw [this] at hr
        exact Option.some.inj hr
      rw [← hr2]
      exact clamp_ratio_mem_unit c p hp hc
    | semiAutomatic =>
      have hr2 : (if 0 < c then (if c < p then c else p) / c else 0) = r := by
        have : (mkProductionParams .semiAutomatic upm peso c p).ratio_productivo =
            some (if 0 < c then (if c < p then c else p) / c else 0) := by
          unfold mkProductionParams
          rw [if_pos (Or.inr rfl)]
        rw [this] at hr
        exact Option.some.inj hr
      rw [← hr2]
      exact clamp_ratio_mem_unit c p hp hc
    | automatic =>
      have hr2 : (1 : ℚ) = r := Option.some.inj hr
      rw [← hr2]
      norm_num

/-- Witness for C8 at a concrete construction where the clamp fires:
total 32 seconds, entered productive 40 seconds. -/
theorem C8_profile_construction_witness :
    (mkProductionParams .manual 48 (453/10) 32 40).ciclo_productivo =
      some (if (32:ℚ) < 40 then 32 else 40) ∧
    (mkProductionParams .manual 48 (453/10) 32 40).ratio_productivo =
      some (if (0:ℚ) < 32 then (if (32:ℚ) < 40 then 32 else 40) / 32 else 0) ∧
    ∀ r, (mkProductionParams .manual 48 (453/10) 32 40).ratio_productivo = some r →
      0 ≤ r ∧ r ≤ 1 :=
  ⟨((C8_profile_construction 48 (453/10) 32 40 (by norm_num) (by norm_num)).1
      .manual (Or.inl rfl)).2.1,
   ((C8_profile_construction 48 (453/10) 32 40 (by norm_num) (by norm_num)).1
      .manual (Or.inl rfl)).2.2,
   fun r hr =>
     (C8_profile_construction 48 (453/10) 32 40 (by norm_num) (by norm_num)).2.2
       .manual r hr⟩

/-! ## C9: Scenario B -/

/-- Scenario B machine: Manual, 48 units/min, 45.3 g/unit, 32-second cycle
with 27 productive seconds, calibration 10 min, other fixed 30 min. -/
def cfgB : MachineConfig :=
  { type := .manual
    setup_params := { calibracion := some 10, otros := some 30, cambio_rollo := some 4,
                      cambio_producto := some 15, cambio_cuchillo := some 30,
                      cambio_perforador := some 10, cambio_paquete := some 5,
                      empaque := some 60 }
    production_params := mkProductionParams .manual 48 (453/10) 32 27 }

/-- Scenario B shift: eight hours, breakfast and lunch included, no variable
interruption events. -/
def inpB : ShiftInput :=
  { turno_horas := 8, desayuno := true, almuerzo := true,
    interrupciones := { cambios_rollo := some 0, cambios_producto := some 0,
                        cambios_cuchillo := some 0, cambios_perforador := some 0,
                        cambios_paquete := some 0, cambios_empaque := some 0 } }

theorem ratioB_eq : cfgB.production_params.ratio_productivo = some (27/32) := by
  norm_num [cfgB, mkProductionParams]

theorem turnoB_eq : turnoMinutos inpB = 480 := by
  norm_num [turnoMinutos, inpB]

theorem netB_eq : tiempoNetoDisponible cfgB inpB = 365 := by
  norm_num [tiempoNetoDisponible, turnoMinutos, interrupcionesFijas, tiempoComidas,
    interrupcionesVariables, variablesResult, presentEvents, eventStep, cfgB, inpB]

theorem efeB_eq : (okResult cfgB inpB).tiempo_efectivo_produccion = 9855/32 := by
  show tiempoNetoDisponible cfgB inpB * cfgB.production_params.ratio_productivo.getD 1 =
    9855/32
  rw [netB_eq, ratioB_eq]
  norm_num

theorem effB_eq : (okResult cfgB inpB).eficiencia_oee = 16425/256 := by
  show (if 0 < turnoMinutos inpB then
      tiempoNetoDisponible cfgB inpB * cfgB.production_params.ratio_productivo.getD 1 /
        turnoMinutos inpB * 100
    else 0) = 16425/256
  rw [turnoB_eq, netB_eq, ratioB_eq]
  norm_num

/-- C9: on the concrete Scenario B input the engine computes
`ratio_productivo = 27/32 = 0.84375`, 480 shift minutes, 365 net available
minutes, productive minutes 9855/32 (≈ 307.97) and efficiency 16425/256
(≈ 64.16). -/
theorem C9_scenario_b :
    cfgB.production_params.ratio_productivo = some (27/32) ∧
    (27/32 : ℚ) = 0.84375 ∧
    turnoMinutos inpB = 480 ∧
    tiempoNetoDisponible cfgB inpB = 365 ∧
    ∃ r, estimate cfgB inpB = .ok r ∧
      r.tiempo_efectivo_produccion = 9855/32 ∧
      |r.tiempo_efectivo_produccion - 30797/100| < 1/100 ∧
      r.eficiencia_oee = 16425/256 ∧
      |r.eficiencia_oee - 6416/100| < 1/100 := by
  refine ⟨ratioB_eq, by norm_num, turnoB_eq, netB_eq,
    okResult cfgB inpB, estimate_ok_of_pos cfgB inpB (by rw [netB_eq]; norm_num),
    efeB_eq, ?_, effB_eq, ?_⟩
  · rw [efeB_eq, abs_lt]
    constructor <;> norm_num
  · rw [effB_eq, abs_lt]
    constructor <;> norm_num

/-! ## C10: the diagnostic lost-time figure -/

theorem perdidoOverbooked_eq :
    (errResult cfgOverbooked inpOverbooked).tiempo_perdido_total = 75 := by
  show interrupcionesFijas cfgOverbooked.setup_params + tiempoComidas inpOverbooked +
      interrupcionesVariables cfgOverbooked.setup_params inpOverbooked.interrupciones = 75
  norm_num [interrupcionesFijas, tiempoComidas, interrupcionesVariables, variablesResult,
    presentEvents, cfgOverbooked, inpOverbooked]

theorem turnoOverbooked_eq :
    (errResult cfgOverbooked inpOverbooked).turno_minutos = 60 := by
  show turnoMinutos inpOverbooked = 60
  norm_num [turnoMinutos, inpOverbooked]

/-- C10: on the diagnostic branch the reported lost time is the full sum of
fixed, meal and variable interruption minutes — not the shift minutes — and
the reported productive time is exactly 0; at the concrete one-hour shift
with both meals the reported lost time (75) strictly exceeds the 60 shift
minutes. -/
theorem C10_diagnostic_lost_time (cfg : MachineConfig) (inp : ShiftInput)
    (h : tiempoNetoDisponible cfg inp ≤ 0) :
    estimate cfg inp = .interruptionsExceedShift (errResult cfg inp) ∧
    (errResult cfg inp).tiempo_perdido_total =
      interrupcionesFijas cfg.setup_params + tiempoComidas inp +
        interrupcionesVariables cfg.setup_params inp.interrupciones ∧
    (errResult cfg inp).tiempo_productivo = 0 ∧
    (errResult cfgOverbooked inpOverbooked).turno_minutos <
      (errResult cfgOverbooked inpOverbooked).tiempo_perdido_total := by
  refine ⟨estimate_err_of_nonpos cfg inp h, rfl, rfl, ?_⟩
  rw [perdidoOverbooked_eq, turnoOverbooked_eq]
  norm_num

/-- Witness for C10 at the concrete overbooked one-hour shift. -/
theorem C10_diagnostic_lost_time_witness :
    estimate cfgOverbooked inpOverbooked =
      .interruptionsExceedShift (errResult cfgOverbooked inpOverbooked) ∧
    (errResult cfgOverbooked inpOverbooked).turno_minutos <
      (errResult cfgOverbooked inpOverbooked).tiempo_perdido_total :=
  ⟨(C10_diagnostic_lost_time cfgOverbooked inpOverbooked netOverbooked_nonpos).1,
   (C10_diagnostic_lost_time cfgOverbooked inpOverbooked netOverbooked_nonpos).2.2.2⟩
